import Mathlib

/-!
Verification of the AI-Interviewer repository.

Shallow embedding of the interview session state machine:

* `Interview`: the pool-based LangGraph variant of `src/app.py`
  (graph nodes `prepare_question`, `evaluate_and_generate_filler`,
  `adjust_difficulty`, `process`, and the `/submit_answer` endpoint).
* `Backend`: the time-limited variant shared by `src/backend/main.py` and
  `src/backend/api/index.py` (`InterviewSession`, `SessionStore`,
  `/start_interview`).

External capabilities (the Groq LLM calls, `random.shuffle`, `time.time()`,
`uuid.uuid4()`) are modelled as explicit oracle parameters; machine floats are
modelled as exact rationals; fallible JSON parsing is modelled with `Option`.
-/

set_option maxHeartbeats 1000000
set_option linter.unnecessarySeqFocus false

namespace Interview

/-- One candidate question of the generated pool (`src/app.py`, questions are
dicts with keys `text`, `area`, `difficulty`; lines 291-304). -/
structure Question where
  text : String
  area : String
  difficulty : String
deriving DecidableEq

/-- The `difficulty_pools` dict of `src/app.py` line 301: exactly the keys
`"easy"`, `"medium"`, `"hard"`. -/
structure Pools where
  easy : List Question
  medium : List Question
  hard : List Question
deriving DecidableEq

/-- Dictionary lookup `pools[k]`.  The session only ever indexes the three
existing keys; an unknown key yields `[]` (in Python it would raise). -/
def Pools.get (p : Pools) (k : String) : List Question :=
  if k = "easy" then p.easy
  else if k = "medium" then p.medium
  else if k = "hard" then p.hard
  else []

/-- Dictionary update `pools[k] = v` for the three existing keys. -/
def Pools.set (p : Pools) (k : String) (v : List Question) : Pools :=
  if k = "easy" then { p with easy := v }
  else if k = "medium" then { p with medium := v }
  else if k = "hard" then { p with hard := v }
  else p

/-- A transcript entry appended by `process` (`src/app.py` lines 225-232). -/
structure TranscriptEntry where
  question : Option String
  answer : Option String
  score : ℤ
  feedback : Option String
  difficulty : Option String
deriving DecidableEq

/-- The LangGraph `State` TypedDict of `src/app.py` lines 33-56. -/
structure State where
  candidate_name : String
  role : String
  resume_text : String
  mode : String
  limit : ℤ
  start_time : ℚ
  difficulty_pools : Pools
  current_difficulty : String
  questions_asked : ℤ
  intro_done : Bool
  current_question : Option String
  current_area : Option String
  current_diff : Option String
  scores : List ℤ
  transcript : List TranscriptEntry
  user_answer : Option String
  previous_answer : Option String
  previous_question : Option String
  feedback : Option String
  score : Option ℤ
  filler : Option String
  is_end : Bool
  needs_followup : Bool
deriving DecidableEq

/-- Python truthiness of `state.get("previous_answer")`: `None` and `""` are
falsy, every other string is truthy. -/
def pyTruthy : Option String → Bool
  | none => false
  | some s => s != ""

/-- Python `str.strip()`: drop leading and trailing whitespace. -/
def pyStrip (s : String) : String :=
  ⟨(((s.data.dropWhile Char.isWhitespace).reverse.dropWhile Char.isWhitespace).reverse)⟩

/-- Python `str.lower()`. -/
def pyLower (s : String) : String :=
  ⟨s.data.map Char.toLower⟩

/-- The tier chosen by the `MAIN` selection of `prepare_question`
(`src/app.py` lines 119-129): the current tier if its pool is non-empty,
otherwise the first non-empty pool in the fixed order medium → hard → easy
(`for other_level in ["medium", "hard", "easy"]`), and `none` when the
`for`-`else` falls through with every pool empty. -/
def mainSelectLevel (state : State) : Option String :=
  let pools := state.difficulty_pools
  if pools.get state.current_difficulty = [] then
    if pools.get "medium" ≠ [] then some "medium"
    else if pools.get "hard" ≠ [] then some "hard"
    else if pools.get "easy" ≠ [] then some "easy"
    else none
  else some state.current_difficulty

/-- The `MAIN` pool selection of `prepare_question` (`src/app.py`
lines 119-140): ends the session when every pool is empty, otherwise shuffles
the chosen pool in place (`random.shuffle`, modelled by the `shuffle` oracle)
and `pop()`s its last element.  Popping an empty list would raise in Python
and is unreachable when `shuffle` is a permutation; it is modelled as a
no-op. -/
def mainSelect (shuffle : List Question → List Question) (state : State) : State :=
  match mainSelectLevel state with
  | none => { state with is_end := true }
  | some lv =>
    let shuffled := shuffle (state.difficulty_pools.get lv)
    match shuffled.getLast? with
    | none => state
    | some q =>
      { state with
        current_difficulty := lv,
        difficulty_pools := state.difficulty_pools.set lv shuffled.dropLast,
        current_question := some q.text,
        current_area := some q.area,
        current_diff := some lv,
        questions_asked := state.questions_asked + 1 }

/-- Graph node `prepare_question` (`src/app.py` lines 79-140).

Oracles: `shuffle` models `random.shuffle` (the pool is permuted in place and
`pop()` then removes its last element), `followupGen` models the `llm.invoke`
call that turns the previous question/answer pair into a follow-up question,
and `now` models `time.time()`. -/
def prepare_question (shuffle : List Question → List Question)
    (followupGen : Option String → Option String → String)
    (now : ℚ) (state : State) : State :=
  if state.is_end then state
  else if state.intro_done = false then
    { state with
      current_question := some "Tell me about yourself.",
      current_area := some "Introduction", current_diff := some "easy",
      intro_done := true }
  else if state.current_area = some "Follow-up" then
    { state with
      current_question := some "Thank you for that clarification. Should we move to the next question?",
      current_area := some "Confirmation" }
  else if state.mode = "time" ∧ (state.limit : ℚ) * 60 < now - state.start_time then
    { state with is_end := true }
  else if state.mode ≠ "time" ∧ state.limit ≤ state.questions_asked then
    { state with is_end := true }
  else if state.needs_followup = true ∧ pyTruthy state.previous_answer = true ∧
      state.current_area ≠ some "Confirmation" then
    { state with
      current_question := some (followupGen state.previous_question state.previous_answer),
      current_area := some "Follow-up", needs_followup := false }
  else
    mainSelect shuffle state

/-- The JSON object parsed from the Evaluator LLM response (`src/app.py`
lines 190-202).  The `Option` fields model `dict.get` with defaults; a missing
field falls back exactly as in the source. -/
structure EvalResp where
  score : Option ℤ
  feedback : Option String
  filler : Option String
  should_follow_up : Option Bool

/-- Graph node `evaluate_and_generate_filler` (`src/app.py` lines 145-209).

`llmEval q a allow_followup` models the `llm.invoke` + `json.loads` pipeline:
`none` is the `except` branch (call failure or unparsable output).  The node
first mutates `previous_question`/`previous_answer` in place, then the
returned partial dict is merged into the state by LangGraph. -/
def evaluate_and_generate_filler
    (llmEval : Option String → String → Bool → Option EvalResp)
    (state : State) : State :=
  let q := state.current_question
  let a := state.user_answer.getD ""
  let current_area := state.current_area.getD ""
  let st := { state with previous_question := q, previous_answer := some a }
  if current_area = "Confirmation" then
    { st with
      score := none, feedback := none,
      filler := some "Great, let's continue.", needs_followup := false }
  else if pyStrip a = "" ∨ pyStrip (pyLower a) = "skip" ∨ pyStrip (pyLower a) = "pass" then
    { st with
      score := some 0, feedback := some "Skipped.",
      filler := some "Okay, moving on.", needs_followup := false }
  else
    let allow_followup : Bool := current_area != "Follow-up"
    match llmEval q a allow_followup with
    | some data =>
      { st with
        score := some (data.score.getD 0),
        feedback := some (data.feedback.getD "Error evaluating"),
        filler := some (data.filler.getD "Okay."),
        needs_followup := if allow_followup then data.should_follow_up.getD false else false }
    | none =>
      { st with
        score := some 0, feedback := some "Evaluation Error",
        filler := some "Okay.", needs_followup := false }

/-- Graph node `adjust_difficulty` (`src/app.py` lines 211-219). -/
def adjust_difficulty (state : State) : State :=
  match state.score with
  | none => state
  | some score =>
    if 75 ≤ score ∧ state.current_difficulty ≠ "hard" then
      { state with current_difficulty :=
          if state.current_difficulty = "medium" then "hard" else "medium" }
    else if score < 45 ∧ state.current_difficulty ≠ "easy" then
      { state with current_difficulty :=
          if state.current_difficulty = "hard" then "medium" else "easy" }
    else state

/-- Graph node `process` (`src/app.py` lines 221-234). -/
def process (state : State) : State :=
  match state.score with
  | none => state
  | some sc =>
    if state.current_area ≠ some "Confirmation" then
      { state with
        scores := state.scores ++ [sc],
        transcript := state.transcript ++
          [{ question := state.current_question, answer := state.user_answer,
             score := sc, feedback := state.feedback,
             difficulty := state.current_diff }] }
    else state

/-- Outcome of one `/submit_answer` request (`src/app.py` lines 344-402):
the `is_end` flag and the `message` field of the JSON response (`filler` and
the report payload are orthogonal to every claim and omitted). -/
structure SubmitResult where
  ended : Bool
  message : Option String
deriving DecidableEq

/-- The node executions of one resumed `/submit_answer` stream
(`src/app.py` lines 348-353): the answer is stored as the `human_feedback`
node, then `evaluate_and_generate_filler`, `adjust_difficulty` and `process`
run up to the `decide` edge. -/
def turnNodes (llmEval : Option String → String → Bool → Option EvalResp)
    (answer : String) (state : State) : State :=
  process (adjust_difficulty
    (evaluate_and_generate_filler llmEval { state with user_answer := some answer }))

/-- One `/submit_answer` transaction (`src/app.py` lines 344-402).

The graph (lines 239-253, interrupted before `human_feedback`) runs
`turnNodes`, then `decide`: if `is_end` it reaches `END` (`snapshot.next`
empty, response `is_end=True` / "Interview Complete."), otherwise it runs
`prepare_question` and interrupts again before `human_feedback` (response
`is_end=False` with the current question). -/
def submit_answer (llmEval : Option String → String → Bool → Option EvalResp)
    (shuffle : List Question → List Question)
    (followupGen : Option String → Option String → String)
    (now : ℚ) (answer : String) (state : State) : State × SubmitResult :=
  let s4 := turnNodes llmEval answer state
  if s4.is_end then
    (s4, { ended := true, message := some "Interview Complete." })
  else
    let s5 := prepare_question shuffle followupGen now s4
    (s5, { ended := false, message := s5.current_question })

/-- Pool construction of `/start_interview` (`src/app.py` lines 301-304):
each generated question is appended to the bucket named by its lowercased
difficulty; other difficulty labels are dropped. -/
def buildPools (questions : List Question) : Pools :=
  questions.foldl (fun p q =>
    let d := q.difficulty.toLower
    if d = "easy" ∨ d = "medium" ∨ d = "hard" then p.set d (p.get d ++ [q]) else p)
    { easy := [], medium := [], hard := [] }

/-- The `initial_state` dict of `/start_interview` (`src/app.py`
lines 311-330). -/
def initial_state (name role resume_text mode : String) (limit : ℤ)
    (now : ℚ) (pools : Pools) : State :=
  { candidate_name := name, role := role, resume_text := resume_text,
    mode := mode, limit := limit, start_time := now,
    difficulty_pools := pools, current_difficulty := "easy",
    questions_asked := 0, intro_done := false,
    current_question := none, current_area := none, current_diff := none,
    scores := [], transcript := [],
    user_answer := none, feedback := none, score := none, filler := none,
    is_end := false, needs_followup := false,
    previous_answer := none, previous_question := none }

/-- Per-submission external inputs: the candidate answer, the wall clock, and
the three oracle calls available during that turn. -/
structure StepInput where
  answer : String
  now : ℚ
  llmEval : Option String → String → Bool → Option EvalResp
  followupGen : Option String → Option String → String
  shuffle : List Question → List Question

/-- Session state reached right after `/start_interview` (`src/app.py`
line 332): the graph runs `prepare_question` on the initial state (the intro
branch) and interrupts before `human_feedback`. -/
def startState (name role resume_text mode : String) (limit : ℤ) (now : ℚ)
    (pools : Pools) (shuffle : List Question → List Question)
    (followupGen : Option String → Option String → String) : State :=
  prepare_question shuffle followupGen now
    (initial_state name role resume_text mode limit now pools)

/-- A whole interview: the state reached after a sequence of `/submit_answer`
transactions. -/
def runSession (state : State) : List StepInput → State
  | [] => state
  | i :: rest =>
      runSession (submit_answer i.llmEval i.shuffle i.followupGen i.now i.answer state).1 rest

/-- Evaluator oracle whose every call fails (the `except` branch of
`src/app.py` lines 203-209). -/
def oracleFail : Option String → String → Bool → Option EvalResp := fun _ _ _ => none

/-- A `random.shuffle` oracle that happens to leave the list unchanged (the
identity permutation). -/
def shuffleId : List Question → List Question := fun l => l

/-- A follow-up-generation oracle returning a fixed question text. -/
def followupConst : Option String → Option String → String := fun _ _ => "Can you give a concrete example?"

/-- What it means for one `MAIN` selection to have taken a question from the
tier-`L` pool: the selection records tier `L`, increments the turn counter,
leaves the other pools untouched, and poses a question that is removed from
the tier-`L` pool (the new pool plus the posed question is a permutation of
the old pool, so each question is asked at most once). -/
def SelectedFrom (s r : State) (L : String) : Prop :=
  r.current_diff = some L ∧ r.current_difficulty = L ∧
  r.questions_asked = s.questions_asked + 1 ∧ r.is_end = false ∧
  (∀ k, k ≠ L → r.difficulty_pools.get k = s.difficulty_pools.get k) ∧
  ∃ q ∈ s.difficulty_pools.get L,
    r.current_question = some q.text ∧ r.current_area = some q.area ∧
    (r.difficulty_pools.get L ++ [q]).Perm (s.difficulty_pools.get L)

/-- A concrete mid-interview session state used by witnesses and
counterexamples: the intro is done, one main question (`q1`) has been asked
and is awaiting its answer. -/
def sampleState : State :=
  { candidate_name := "Alice", role := "Engineer", resume_text := "",
    mode := "time", limit := 5, start_time := 0,
    difficulty_pools := { easy := [⟨"q2", "Technical", "easy"⟩], medium := [], hard := [] },
    current_difficulty := "easy",
    questions_asked := 1, intro_done := true,
    current_question := some "q1", current_area := some "Technical",
    current_diff := some "easy",
    scores := [], transcript := [],
    user_answer := none, feedback := none, score := none, filler := none,
    is_end := false, needs_followup := false,
    previous_answer := none, previous_question := none }

/-- An evaluator oracle that always parses to a fixed full response. -/
def oracleConst : Option String → String → Bool → Option EvalResp :=
  fun _ _ _ => some
    { score := some 99, feedback := some "great answer",
      filler := some "Nice.", should_follow_up := some true }

/-- `sampleState` answered with a skip keyword while a confirmation exchange
is pending. -/
def skipConfState : State :=
  { sampleState with current_area := some "Confirmation", user_answer := some " SKIP " }

/-- A turn-count session that has reached its limit with a follow-up still
owed (`needs_followup` flagged by the last evaluation but not yet asked). -/
def c2state : State :=
  { sampleState with
    mode := "turns", limit := 2, questions_asked := 2,
    needs_followup := true, previous_answer := some "I used Python",
    previous_question := some "What did you use?" }

/-- A turn-count session in mid-interview with budget left. -/
def c6wState : State :=
  { sampleState with mode := "turns" }

/-- `sampleState` with a substantive (non-skip) answer pending evaluation. -/
def c8state : State :=
  { sampleState with user_answer := some "a real answer" }

/-- `sampleState` carrying an evaluated score awaiting `process`. -/
def c3wState : State :=
  { sampleState with score := some 50 }

/-- `sampleState` while a follow-up exchange is in progress (the follow-up
question has been asked and is being answered). -/
def followupTimeState : State :=
  { sampleState with current_area := some "Follow-up" }

end Interview

namespace Backend

/-- A chat-history message (`langchain_core.messages`): the three message
kinds the backend stores in `InMemoryChatMessageHistory`. -/
inductive Msg where
  | system (content : String)
  | human (content : String)
  | ai (content : String)
deriving DecidableEq

/-- `messages_to_dict` on one message: the serialized `(type, content)` pair. -/
def msg_to_dict : Msg → String × String
  | .system c => ("system", c)
  | .human c => ("human", c)
  | .ai c => ("ai", c)

/-- `messages_from_dict` on one entry; an unknown type tag raises (modelled as
`none`). -/
def msg_from_dict : String × String → Option Msg
  | (t, c) =>
    if t = "system" then some (.system c)
    else if t = "human" then some (.human c)
    else if t = "ai" then some (.ai c)
    else none

/-- `messages_to_dict` (`src/backend/api/index.py` line 188). -/
def messages_to_dict (msgs : List Msg) : List (String × String) :=
  msgs.map msg_to_dict

/-- `messages_from_dict` (`src/backend/api/index.py` line 231): deserializes
the entries in order; the first unknown type tag raises (`none`). -/
def messages_from_dict : List (String × String) → Option (List Msg)
  | [] => some []
  | d :: rest =>
    match msg_from_dict d with
    | none => none
    | some m =>
      match messages_from_dict rest with
      | none => none
      | some ms => some (m :: ms)

/-- The `InterviewSession` object shared by `src/backend/main.py` lines 74-122
and `src/backend/api/index.py` lines 77-125.  Python floats are modelled as
exact rationals; `memory` is the ordered message list. -/
structure BSession where
  id : String
  name : String
  role : String
  resume_text : String
  duration_minutes : ℚ
  start_time : ℚ
  messages : List Msg
  finished : Bool
  mode : String
deriving DecidableEq

/-- Python `s[:n]` on strings. -/
def pyTake (n : ℕ) (s : String) : String := s.take n

/-- The `system_context` prompt assembled by the `InterviewSession`
constructor.  The literal instruction text is abbreviated to its data-bearing
skeleton: no code path ever branches on it, and it is discarded
(`memory.clear()`) before any state round-trip. -/
def system_context (name role resume_text : String) (duration_minutes : ℚ)
    (mode : String) : String :=
  "You are an expert professional interviewer conducting a strict time-bound screening interview for a "
    ++ role ++ " position. Candidate: " ++ name
    ++ " Total interview duration: " ++ toString duration_minutes
    ++ " minutes Resume: " ++ pyTake 3500 resume_text
    ++ " Mode: " ++ mode.toUpper

/-- The `InterviewSession.__init__` constructor (`src/backend/api/index.py`
lines 78-125; identical in `src/backend/main.py`).  `genId` models
`uuid.uuid4()` and `now` models `time.time()`; `resume_text or "No resume
provided."` replaces the empty string. -/
def mkSession (name role resume_text : String) (duration_minutes : ℤ)
    (mode : String) (genId : String) (now : ℚ) : BSession :=
  let rt := if resume_text = "" then "No resume provided." else resume_text
  { id := genId, name := name, role := role, resume_text := rt,
    duration_minutes := (duration_minutes : ℚ), start_time := now,
    messages := [Msg.system (system_context name role rt (duration_minutes : ℚ) mode)],
    finished := false, mode := mode }

/-- `InterviewSession.get_remaining_time` (`src/backend/api/index.py`
lines 127-130): budget minus elapsed minutes, floored at zero. -/
def BSession.get_remaining_time (s : BSession) (now : ℚ) : ℚ :=
  max 0 (s.duration_minutes - (now - s.start_time) / 60)

/-- Python substring containment `pat in s`. -/
def strContains (s pat : String) : Bool :=
  (s.splitOn pat).length != 1

/-- The closing-phrase detector of `get_response` (`src/backend/api/index.py`
lines 159-161). -/
def concludes_detect (resp : String) : Bool :=
  let lower := resp.toLower
  strContains lower "concludes the interview" ||
    strContains lower "concludes our interview" ||
    strContains lower "thank you for your time"

/-- `InterviewSession.get_response` (`src/backend/api/index.py` lines 132-164;
identical in `src/backend/main.py` lines 129-161).  `llmO` models
`llm.ainvoke` on the accumulated message list; `now` models `time.time()`.
Returns the updated session and the reply string. -/
def BSession.get_response (s : BSession) (llmO : List Msg → String) (now : ℚ)
    (user_input : String) (is_silence : Bool) : BSession × String :=
  let s1 := { s with
    messages := s.messages ++ [Msg.human (if is_silence then "[SILENCE]" else user_input)] }
  let remaining := s1.get_remaining_time now
  if s1.finished then
    (s1, "The interview has already concluded. Thank you.")
  else if remaining ≤ 0 then
    let farewell := "Thank you for your time today. This concludes our interview. Goodbye!"
    ({ s1 with finished := true, messages := s1.messages ++ [Msg.ai farewell] }, farewell)
  else if remaining < s1.duration_minutes * (1 / 10) then
    let closing := "We're out of time. Thank you so much for your responses today. This concludes the interview."
    ({ s1 with finished := true, messages := s1.messages ++ [Msg.ai closing] }, closing)
  else
    let resp := llmO s1.messages
    let s2 := if concludes_detect resp then { s1 with finished := true } else s1
    ({ s2 with messages := s2.messages ++ [Msg.ai resp] }, resp)

/-- The Redis hash written by `SessionStore.save` (`src/backend/api/index.py`
lines 188-199): every field is stored as a string.  `duration_minutes` and
`start_time` hold `str(float)` values, which round-trip exactly, so they are
carried as the rationals they denote; `finished` holds the literal `str(bool)`
text. -/
structure StoredData where
  id : String
  name : String
  role : String
  resume_text : String
  duration_minutes : ℚ
  start_time : ℚ
  finished : String
  mode : String
  messages : List (String × String)
deriving DecidableEq

/-- The Redis key space: newest write first (`hset` overwrites, lookup finds
the most recent value). -/
def RedisStore := List (String × StoredData)

/-- `redis.hgetall` on the modelled key space. -/
def storeFind : List (String × StoredData) → String → Option StoredData
  | [], _ => none
  | (k, v) :: rest, key => if k = key then some v else storeFind rest key

/-- `SessionStore.save` with the Redis backend (`src/backend/api/index.py`
lines 182-204); the `expire` TTL does not change the stored value. -/
def SessionStore.save (store : RedisStore) (s : BSession) : RedisStore :=
  ("session:" ++ s.id,
    { id := s.id, name := s.name, role := s.role, resume_text := s.resume_text,
      duration_minutes := s.duration_minutes, start_time := s.start_time,
      finished := if s.finished then "True" else "False", mode := s.mode,
      messages := messages_to_dict s.messages }) :: store

/-- Python `int(float(x))`: truncation toward zero. -/
def pyTrunc (q : ℚ) : ℤ :=
  if 0 ≤ q then ⌊q⌋ else ⌈q⌉

/-- `SessionStore.get` with the Redis backend (`src/backend/api/index.py`
lines 208-236): rebuilds the session through the constructor (whose fresh id,
start time and system message are then overwritten), restores `finished` by
comparing with `"True"`, and replaces the memory with the deserialized
messages. -/
def SessionStore.get (store : RedisStore) (session_id : String)
    (genId : String) (now : ℚ) : Option BSession :=
  match storeFind store ("session:" ++ session_id) with
  | none => none
  | some d =>
    match messages_from_dict d.messages with
    | none => none
    | some msgs =>
      let base := mkSession d.name d.role d.resume_text (pyTrunc d.duration_minutes)
        (d.mode) genId now
      some { base with
        id := d.id, start_time := d.start_time,
        finished := d.finished == "True", messages := msgs }

/-- An HTTP error raised by an endpoint (`fastapi.HTTPException`). -/
structure HTTPError where
  status : ℤ
  detail : String
deriving DecidableEq

/-- The greeting built by both `/start_interview` endpoints
(`src/backend/api/index.py` line 336, `src/backend/main.py` line 240). -/
def start_greeting (name : String) (duration : ℤ) (role : String) : String :=
  "Hello " ++ name ++ ", thank you for joining me. This is a " ++ toString duration
    ++ "-minute timed interview for the " ++ role
    ++ " position. We'll begin now — please tell me about yourself and your background."

/-- `/start_interview` of `src/backend/api/index.py` lines 313-349.

`extractedResume` stands for the result of the upload + PDF-extraction
pipeline (lines 324-328; `""` when absent or failed), `genId`/`now` for
`uuid.uuid4()`/`time.time()`.  Returns the (possibly updated) store and
either the HTTP 400 error or the `(session_id, greeting)` payload; the audio
side effects do not touch the store. -/
def start_interview_index (store : RedisStore) (name role : String)
    (duration : ℤ) (mode : String) (extractedResume : String)
    (genId : String) (now : ℚ) :
    RedisStore × Except HTTPError (String × String) :=
  if duration < 3 ∨ 45 < duration then
    (store, .error ⟨400, "Duration must be between 3 and 45 minutes."⟩)
  else
    let resume_text :=
      if extractedResume = "" ∨ (Interview.pyStrip extractedResume).length < 10 then
        "No resume provided."
      else extractedResume
    let session := mkSession name role resume_text duration mode genId now
    let store1 := SessionStore.save store session
    let greeting := start_greeting name duration role
    let session2 := { session with messages := session.messages ++ [Msg.ai greeting] }
    let store2 := SessionStore.save store1 session2
    (store2, .ok (session.id, greeting))

/-- Python `str.split()` (split on whitespace, dropping empty parts). -/
def pySplitWs (s : String) : List String :=
  (s.split Char.isWhitespace).filter (fun p => p ≠ "")

/-- `/start_interview` of `src/backend/main.py` lines 206-252.

Here the process-local `sessions` dict is the store, and the endpoint also
validates the extracted résumé text and the candidate name against it before
creating a session. -/
def start_interview_main (sessions : List (String × BSession)) (name role : String)
    (duration : ℤ) (mode : String) (extractedResume : String)
    (genId : String) (now : ℚ) :
    List (String × BSession) × Except HTTPError (String × String) :=
  if duration < 3 ∨ 45 < duration then
    (sessions, .error ⟨400, "Duration must be between 3 and 45 minutes."⟩)
  else if extractedResume = "" ∨ (Interview.pyStrip extractedResume).length < 10 then
    (sessions, .error ⟨400, "Could not extract readable text from the resume. Please upload a valid text-based PDF."⟩)
  else
    let name_parts := pySplitWs (Interview.pyLower (Interview.pyStrip name))
    let resume_lower := extractedResume.toLower
    if ¬ (name_parts.all (fun p => strContains resume_lower p)) then
      (sessions, .error ⟨400, "The name '" ++ name ++ "' does not match the resume content. Please enter the name exactly as it appears."⟩)
    else
      let session := mkSession name role extractedResume duration mode genId now
      let greeting := start_greeting name duration role
      let session2 := { session with messages := session.messages ++ [Msg.ai greeting] }
      ((session.id, session2) :: sessions, .ok (session.id, greeting))

/-- A concrete backend session used by witnesses: five-minute chat interview
started at time 0. -/
def sampleBSession : BSession :=
  mkSession "Alice" "Engineer" "resume text of alice" 5 "chat" "id-1" 0

end Backend

/-! ## Helper lemmas -/

namespace Interview

theorem Pools.get_easy (p : Pools) : p.get "easy" = p.easy := rfl

theorem Pools.get_medium (p : Pools) : p.get "medium" = p.medium := rfl

theorem Pools.get_hard (p : Pools) : p.get "hard" = p.hard := rfl

theorem Pools.get_of_ne_nil (p : Pools) (k : String) (h : p.get k ≠ []) :
    k = "easy" ∨ k = "medium" ∨ k = "hard" := by
  unfold Pools.get at h
  split_ifs at h with h1 h2 h3
  · exact Or.inl h1
  · exact Or.inr (Or.inl h2)
  · exact Or.inr (Or.inr h3)
  · exact absurd rfl h

theorem Pools.get_set_same (p : Pools) (k : String) (v : List Question)
    (hk : k = "easy" ∨ k = "medium" ∨ k = "hard") :
    (p.set k v).get k = v := by
  rcases hk with rfl | rfl | rfl <;> rfl

theorem Pools.get_set_ne (p : Pools) (k k' : String) (v : List Question)
    (h : k' ≠ k) : (p.set k v).get k' = p.get k' := by
  unfold Pools.get Pools.set
  split_ifs <;> simp_all

theorem evaluate_is_end (e : Option String → String → Bool → Option EvalResp)
    (s : State) : (evaluate_and_generate_filler e s).is_end = s.is_end := by
  unfold evaluate_and_generate_filler
  dsimp only
  split
  · rfl
  · split
    · rfl
    · split <;> rfl

theorem evaluate_intro_done (e : Option String → String → Bool → Option EvalResp)
    (s : State) : (evaluate_and_generate_filler e s).intro_done = s.intro_done := by
  unfold evaluate_and_generate_filler
  dsimp only
  split
  · rfl
  · split
    · rfl
    · split <;> rfl

theorem evaluate_mode (e : Option String → String → Bool → Option EvalResp)
    (s : State) : (evaluate_and_generate_filler e s).mode = s.mode := by
  unfold evaluate_and_generate_filler
  dsimp only
  split
  · rfl
  · split
    · rfl
    · split <;> rfl

theorem evaluate_limit (e : Option String → String → Bool → Option EvalResp)
    (s : State) : (evaluate_and_generate_filler e s).limit = s.limit := by
  unfold evaluate_and_generate_filler
  dsimp only
  split
  · rfl
  · split
    · rfl
    · split <;> rfl

theorem evaluate_start_time (e : Option String → String → Bool → Option EvalResp)
    (s : State) : (evaluate_and_generate_filler e s).start_time = s.start_time := by
  unfold evaluate_and_generate_filler
  dsimp only
  split
  · rfl
  · split
    · rfl
    · split <;> rfl

theorem evaluate_current_area (e : Option String → String → Bool → Option EvalResp)
    (s : State) : (evaluate_and_generate_filler e s).current_area = s.current_area := by
  unfold evaluate_and_generate_filler
  dsimp only
  split
  · rfl
  · split
    · rfl
    · split <;> rfl

theorem evaluate_current_question (e : Option String → String → Bool → Option EvalResp)
    (s : State) : (evaluate_and_generate_filler e s).current_question = s.current_question := by
  unfold evaluate_and_generate_filler
  dsimp only
  split
  · rfl
  · split
    · rfl
    · split <;> rfl

theorem evaluate_scores (e : Option String → String → Bool → Option EvalResp)
    (s : State) : (evaluate_and_generate_filler e s).scores = s.scores := by
  unfold evaluate_and_generate_filler
  dsimp only
  split
  · rfl
  · split
    · rfl
    · split <;> rfl

theorem evaluate_transcript (e : Option String → String → Bool → Option EvalResp)
    (s : State) : (evaluate_and_generate_filler e s).transcript = s.transcript := by
  unfold evaluate_and_generate_filler
  dsimp only
  split
  · rfl
  · split
    · rfl
    · split <;> rfl

end Interview

namespace Interview

theorem adjust_score (s : State) : (adjust_difficulty s).score = s.score := by
  unfold adjust_difficulty
  split
  · rfl
  · split
    · rfl
    · split <;> rfl

theorem adjust_is_end (s : State) : (adjust_difficulty s).is_end = s.is_end := by
  unfold adjust_difficulty
  split
  · rfl
  · split
    · rfl
    · split <;> rfl

theorem adjust_intro_done (s : State) : (adjust_difficulty s).intro_done = s.intro_done := by
  unfold adjust_difficulty
  split
  · rfl
  · split
    · rfl
    · split <;> rfl

theorem adjust_mode (s : State) : (adjust_difficulty s).mode = s.mode := by
  unfold adjust_difficulty
  split
  · rfl
  · split
    · rfl
    · split <;> rfl

theorem adjust_limit (s : State) : (adjust_difficulty s).limit = s.limit := by
  unfold adjust_difficulty
  split
  · rfl
  · split
    · rfl
    · split <;> rfl

theorem adjust_start_time (s : State) : (adjust_difficulty s).start_time = s.start_time := by
  unfold adjust_difficulty
  split
  · rfl
  · split
    · rfl
    · split <;> rfl

theorem adjust_current_area (s : State) : (adjust_difficulty s).current_area = s.current_area := by
  unfold adjust_difficulty
  split
  · rfl
  · split
    · rfl
    · split <;> rfl

theorem adjust_current_question (s : State) : (adjust_difficulty s).current_question = s.current_question := by
  unfold adjust_difficulty
  split
  · rfl
  · split
    · rfl
    · split <;> rfl

theorem adjust_current_diff (s : State) : (adjust_difficulty s).current_diff = s.current_diff := by
  unfold adjust_difficulty
  split
  · rfl
  · split
    · rfl
    · split <;> rfl

theorem adjust_user_answer (s : State) : (adjust_difficulty s).user_answer = s.user_answer := by
  unfold adjust_difficulty
  split
  · rfl
  · split
    · rfl
    · split <;> rfl

theorem adjust_feedback (s : State) : (adjust_difficulty s).feedback = s.feedback := by
  unfold adjust_difficulty
  split
  · rfl
  · split
    · rfl
    · split <;> rfl

theorem adjust_scores (s : State) : (adjust_difficulty s).scores = s.scores := by
  unfold adjust_difficulty
  split
  · rfl
  · split
    · rfl
    · split <;> rfl

theorem adjust_transcript (s : State) : (adjust_difficulty s).transcript = s.transcript := by
  unfold adjust_difficulty
  split
  · rfl
  · split
    · rfl
    · split <;> rfl

theorem process_is_end (s : State) : (process s).is_end = s.is_end := by
  unfold process
  split
  · rfl
  · split <;> rfl

theorem process_intro_done (s : State) : (process s).intro_done = s.intro_done := by
  unfold process
  split
  · rfl
  · split <;> rfl

theorem process_mode (s : State) : (process s).mode = s.mode := by
  unfold process
  split
  · rfl
  · split <;> rfl

theorem process_limit (s : State) : (process s).limit = s.limit := by
  unfold process
  split
  · rfl
  · split <;> rfl

theorem process_start_time (s : State) : (process s).start_time = s.start_time := by
  unfold process
  split
  · rfl
  · split <;> rfl

theorem process_current_area (s : State) : (process s).current_area = s.current_area := by
  unfold process
  split
  · rfl
  · split <;> rfl

theorem process_current_question (s : State) : (process s).current_question = s.current_question := by
  unfold process
  split
  · rfl
  · split <;> rfl

theorem prepare_scores (sh : List Question → List Question)
    (fu : Option String → Option String → String) (now : ℚ) (s : State) :
    (prepare_question sh fu now s).scores = s.scores := by
  unfold prepare_question mainSelect
  dsimp only
  repeat' split
  all_goals rfl

theorem prepare_transcript (sh : List Question → List Question)
    (fu : Option String → Option String → String) (now : ℚ) (s : State) :
    (prepare_question sh fu now s).transcript = s.transcript := by
  unfold prepare_question mainSelect
  dsimp only
  repeat' split
  all_goals rfl

end Interview

namespace Interview

theorem prepare_followup_confirm (sh : List Question → List Question)
    (fu : Option String → Option String → String) (now : ℚ) (s : State)
    (hend : s.is_end = false) (hintro : s.intro_done = true)
    (harea : s.current_area = some "Follow-up") :
    prepare_question sh fu now s =
      { s with
        current_question := some "Thank you for that clarification. Should we move to the next question?",
        current_area := some "Confirmation" } := by
  unfold prepare_question
  rw [if_neg (by simp [hend]), if_neg (by simp [hintro]), if_pos harea]

theorem prepare_time_end (sh : List Question → List Question)
    (fu : Option String → Option String → String) (now : ℚ) (s : State)
    (hend : s.is_end = false) (hintro : s.intro_done = true)
    (harea : s.current_area ≠ some "Follow-up")
    (hmode : s.mode = "time")
    (htime : (s.limit : ℚ) * 60 < now - s.start_time) :
    prepare_question sh fu now s = { s with is_end := true } := by
  unfold prepare_question
  rw [if_neg (by simp [hend]), if_neg (by simp [hintro]), if_neg harea,
    if_pos ⟨hmode, htime⟩]

theorem prepare_turn_end (sh : List Question → List Question)
    (fu : Option String → Option String → String) (now : ℚ) (s : State)
    (hend : s.is_end = false) (hintro : s.intro_done = true)
    (harea : s.current_area ≠ some "Follow-up")
    (hmode : s.mode ≠ "time")
    (hcount : s.limit ≤ s.questions_asked) :
    prepare_question sh fu now s = { s with is_end := true } := by
  unfold prepare_question
  rw [if_neg (by simp [hend]), if_neg (by simp [hintro]), if_neg harea,
    if_neg (fun h => hmode h.1), if_pos ⟨hmode, hcount⟩]

theorem prepare_main_reduce (sh : List Question → List Question)
    (fu : Option String → Option String → String) (now : ℚ) (s : State)
    (hend : s.is_end = false) (hintro : s.intro_done = true)
    (harea : s.current_area ≠ some "Follow-up")
    (hb1 : ¬ (s.mode = "time" ∧ (s.limit : ℚ) * 60 < now - s.start_time))
    (hb2 : ¬ (s.mode ≠ "time" ∧ s.limit ≤ s.questions_asked))
    (hnf : s.needs_followup = false) :
    prepare_question sh fu now s = mainSelect sh s := by
  unfold prepare_question
  rw [if_neg (by simp [hend]), if_neg (by simp [hintro]), if_neg harea,
    if_neg hb1, if_neg hb2, if_neg (fun h => by simp [hnf] at h)]

theorem evaluate_confirmation_eq (e : Option String → String → Bool → Option EvalResp)
    (s : State) (harea : s.current_area.getD "" = "Confirmation") :
    evaluate_and_generate_filler e s =
      { s with
        previous_question := s.current_question,
        previous_answer := some (s.user_answer.getD ""),
        score := none, feedback := none,
        filler := some "Great, let's continue.", needs_followup := false } := by
  unfold evaluate_and_generate_filler
  dsimp only
  rw [if_pos harea]

theorem evaluate_skip_eq (e : Option String → String → Bool → Option EvalResp)
    (s : State) (harea : s.current_area.getD "" ≠ "Confirmation")
    (hskip : pyStrip (s.user_answer.getD "") = "" ∨
      pyStrip (pyLower (s.user_answer.getD "")) = "skip" ∨
      pyStrip (pyLower (s.user_answer.getD "")) = "pass") :
    evaluate_and_generate_filler e s =
      { s with
        previous_question := s.current_question,
        previous_answer := some (s.user_answer.getD ""),
        score := some 0, feedback := some "Skipped.",
        filler := some "Okay, moving on.", needs_followup := false } := by
  unfold evaluate_and_generate_filler
  dsimp only
  rw [if_neg harea, if_pos hskip]

theorem evaluate_fail_eq (e : Option String → String → Bool → Option EvalResp)
    (s : State) (harea : s.current_area.getD "" ≠ "Confirmation")
    (hskip : ¬ (pyStrip (s.user_answer.getD "") = "" ∨
      pyStrip (pyLower (s.user_answer.getD "")) = "skip" ∨
      pyStrip (pyLower (s.user_answer.getD "")) = "pass"))
    (hfail : ∀ x y b, e x y b = none) :
    evaluate_and_generate_filler e s =
      { s with
        previous_question := s.current_question,
        previous_answer := some (s.user_answer.getD ""),
        score := some 0, feedback := some "Evaluation Error",
        filler := some "Okay.", needs_followup := false } := by
  unfold evaluate_and_generate_filler
  dsimp only
  rw [if_neg harea, if_neg hskip, hfail]

theorem process_eq_append (s : State) (sc : ℤ) (hsc : s.score = some sc)
    (harea : s.current_area ≠ some "Confirmation") :
    process s = { s with
      scores := s.scores ++ [sc],
      transcript := s.transcript ++
        [{ question := s.current_question, answer := s.user_answer,
           score := sc, feedback := s.feedback, difficulty := s.current_diff }] } := by
  unfold process
  rw [hsc]
  dsimp only
  rw [if_pos harea]

theorem process_eq_self_of_none (s : State) (hsc : s.score = none) :
    process s = s := by
  unfold process
  rw [hsc]

theorem process_eq_self_of_conf (s : State)
    (harea : s.current_area = some "Confirmation") : process s = s := by
  unfold process
  split
  · rfl
  · rw [if_neg (by simp [harea])]

end Interview

namespace Interview

theorem turnNodes_is_end (e : Option String → String → Bool → Option EvalResp)
    (ans : String) (s : State) : (turnNodes e ans s).is_end = s.is_end := by
  unfold turnNodes
  rw [process_is_end, adjust_is_end, evaluate_is_end]

theorem turnNodes_intro_done (e : Option String → String → Bool → Option EvalResp)
    (ans : String) (s : State) : (turnNodes e ans s).intro_done = s.intro_done := by
  unfold turnNodes
  rw [process_intro_done, adjust_intro_done, evaluate_intro_done]

theorem turnNodes_mode (e : Option String → String → Bool → Option EvalResp)
    (ans : String) (s : State) : (turnNodes e ans s).mode = s.mode := by
  unfold turnNodes
  rw [process_mode, adjust_mode, evaluate_mode]

theorem turnNodes_limit (e : Option String → String → Bool → Option EvalResp)
    (ans : String) (s : State) : (turnNodes e ans s).limit = s.limit := by
  unfold turnNodes
  rw [process_limit, adjust_limit, evaluate_limit]

theorem turnNodes_start_time (e : Option String → String → Bool → Option EvalResp)
    (ans : String) (s : State) : (turnNodes e ans s).start_time = s.start_time := by
  unfold turnNodes
  rw [process_start_time, adjust_start_time, evaluate_start_time]

theorem turnNodes_current_area (e : Option String → String → Bool → Option EvalResp)
    (ans : String) (s : State) : (turnNodes e ans s).current_area = s.current_area := by
  unfold turnNodes
  rw [process_current_area, adjust_current_area, evaluate_current_area]

theorem turnNodes_current_question (e : Option String → String → Bool → Option EvalResp)
    (ans : String) (s : State) : (turnNodes e ans s).current_question = s.current_question := by
  unfold turnNodes
  rw [process_current_question, adjust_current_question, evaluate_current_question]

theorem submit_answer_eq_of_end (e : Option String → String → Bool → Option EvalResp)
    (sh : List Question → List Question) (fu : Option String → Option String → String)
    (now : ℚ) (ans : String) (s : State)
    (h : (turnNodes e ans s).is_end = true) :
    submit_answer e sh fu now ans s =
      (turnNodes e ans s, { ended := true, message := some "Interview Complete." }) := by
  unfold submit_answer
  dsimp only
  rw [if_pos h]

theorem submit_answer_eq_of_not_end (e : Option String → String → Bool → Option EvalResp)
    (sh : List Question → List Question) (fu : Option String → Option String → String)
    (now : ℚ) (ans : String) (s : State)
    (h : (turnNodes e ans s).is_end = false) :
    submit_answer e sh fu now ans s =
      (prepare_question sh fu now (turnNodes e ans s),
       { ended := false,
         message := (prepare_question sh fu now (turnNodes e ans s)).current_question }) := by
  unfold submit_answer
  dsimp only
  rw [if_neg (by simp [h])]

theorem process_len (s : State) (h : s.transcript.length = s.scores.length) :
    (process s).transcript.length = (process s).scores.length := by
  unfold process
  split
  · exact h
  · split
    · simp [h]
    · exact h

theorem turnNodes_len (e : Option String → String → Bool → Option EvalResp)
    (ans : String) (s : State) (h : s.transcript.length = s.scores.length) :
    (turnNodes e ans s).transcript.length = (turnNodes e ans s).scores.length := by
  unfold turnNodes
  apply process_len
  rw [adjust_transcript, adjust_scores, evaluate_transcript, evaluate_scores]
  exact h

theorem submit_answer_len (e : Option String → String → Bool → Option EvalResp)
    (sh : List Question → List Question) (fu : Option String → Option String → String)
    (now : ℚ) (ans : String) (s : State)
    (h : s.transcript.length = s.scores.length) :
    (submit_answer e sh fu now ans s).1.transcript.length =
      (submit_answer e sh fu now ans s).1.scores.length := by
  unfold submit_answer
  dsimp only
  split
  · exact turnNodes_len e ans s h
  · rw [prepare_transcript, prepare_scores]
    exact turnNodes_len e ans s h

theorem runSession_len (inputs : List StepInput) (s : State)
    (h : s.transcript.length = s.scores.length) :
    (runSession s inputs).transcript.length = (runSession s inputs).scores.length := by
  induction inputs generalizing s with
  | nil => exact h
  | cons i rest ih =>
    exact ih _ (submit_answer_len i.llmEval i.shuffle i.followupGen i.now i.answer s h)

end Interview

namespace Interview

theorem Pools.get_eq_nil_of_all (p : Pools) (he : p.easy = []) (hm : p.medium = [])
    (hh : p.hard = []) (k : String) : p.get k = [] := by
  unfold Pools.get
  split_ifs <;> simp_all

theorem mainSelectLevel_of_cur (s : State)
    (h : s.difficulty_pools.get s.current_difficulty ≠ []) :
    mainSelectLevel s = some s.current_difficulty := by
  unfold mainSelectLevel
  dsimp only
  rw [if_neg h]

theorem mainSelectLevel_of_medium (s : State)
    (h : s.difficulty_pools.get s.current_difficulty = [])
    (hm : s.difficulty_pools.medium ≠ []) :
    mainSelectLevel s = some "medium" := by
  unfold mainSelectLevel
  dsimp only
  rw [Pools.get_medium]
  rw [if_pos h, if_pos hm]

theorem mainSelectLevel_of_hard (s : State)
    (h : s.difficulty_pools.get s.current_difficulty = [])
    (hm : s.difficulty_pools.medium = []) (hh : s.difficulty_pools.hard ≠ []) :
    mainSelectLevel s = some "hard" := by
  unfold mainSelectLevel
  dsimp only
  rw [Pools.get_medium, Pools.get_hard]
  rw [if_pos h, if_neg (by simp [hm]), if_pos hh]

theorem mainSelectLevel_of_easy (s : State)
    (h : s.difficulty_pools.get s.current_difficulty = [])
    (hm : s.difficulty_pools.medium = []) (hh : s.difficulty_pools.hard = [])
    (he : s.difficulty_pools.easy ≠ []) :
    mainSelectLevel s = some "easy" := by
  unfold mainSelectLevel
  dsimp only
  rw [Pools.get_medium, Pools.get_hard, Pools.get_easy]
  rw [if_pos h, if_neg (by simp [hm]), if_neg (by simp [hh]), if_pos he]

theorem mainSelectLevel_none (s : State)
    (he : s.difficulty_pools.easy = []) (hm : s.difficulty_pools.medium = [])
    (hh : s.difficulty_pools.hard = []) :
    mainSelectLevel s = none := by
  unfold mainSelectLevel
  dsimp only
  rw [Pools.get_medium, Pools.get_hard, Pools.get_easy]
  rw [if_pos (Pools.get_eq_nil_of_all _ he hm hh _), if_neg (by simp [hm]),
    if_neg (by simp [hh]), if_neg (by simp [he])]

theorem mainSelect_end_of_all_empty (sh : List Question → List Question) (s : State)
    (he : s.difficulty_pools.easy = []) (hm : s.difficulty_pools.medium = [])
    (hh : s.difficulty_pools.hard = []) :
    mainSelect sh s = { s with is_end := true } := by
  unfold mainSelect
  rw [mainSelectLevel_none s he hm hh]

theorem mainSelect_selected (sh : List Question → List Question) (s : State)
    (hperm : ∀ l, (sh l).Perm l) (hend : s.is_end = false) (L : String)
    (hlev : mainSelectLevel s = some L)
    (hne : s.difficulty_pools.get L ≠ []) :
    SelectedFrom s (mainSelect sh s) L := by
  have hL3 := Pools.get_of_ne_nil _ _ hne
  have hshne : sh (s.difficulty_pools.get L) ≠ [] := by
    intro h
    have hlen := (hperm (s.difficulty_pools.get L)).length_eq
    rw [h] at hlen
    exact hne (List.eq_nil_of_length_eq_zero hlen.symm)
  have hlast := List.getLast?_eq_getLast (sh (s.difficulty_pools.get L)) hshne
  unfold mainSelect
  rw [hlev]
  dsimp only
  rw [hlast]
  dsimp only
  refine ⟨rfl, rfl, rfl, hend, ?_, ?_⟩
  · intro k hk
    exact Pools.get_set_ne _ _ _ _ hk
  · refine ⟨(sh (s.difficulty_pools.get L)).getLast hshne,
      (hperm _).subset (List.getLast_mem hshne), rfl, rfl, ?_⟩
    rw [Pools.get_set_same _ _ _ hL3, List.dropLast_append_getLast hshne]
    exact hperm _

end Interview

namespace Interview

theorem mainSelect_not_end (sh : List Question → List Question) (s : State)
    (hend : s.is_end = false)
    (hpool : s.difficulty_pools.easy ≠ [] ∨ s.difficulty_pools.medium ≠ [] ∨
      s.difficulty_pools.hard ≠ []) :
    (mainSelect sh s).is_end = false := by
  unfold mainSelect
  cases hlev : mainSelectLevel s with
  | none =>
    exfalso
    unfold mainSelectLevel at hlev
    dsimp only at hlev
    rcases hpool with h | h | h <;>
      (split_ifs at hlev <;>
        simp_all [Pools.get_medium, Pools.get_hard, Pools.get_easy])
  | some lv =>
    dsimp only
    cases hlast : (sh (s.difficulty_pools.get lv)).getLast? with
    | none => exact hend
    | some q => exact hend

theorem adjust_current_difficulty_eq (s : State) (sc : ℤ) (hsc : s.score = some sc) :
    (adjust_difficulty s).current_difficulty =
      if 75 ≤ sc ∧ s.current_difficulty ≠ "hard" then
        (if s.current_difficulty = "medium" then "hard" else "medium")
      else if sc < 45 ∧ s.current_difficulty ≠ "easy" then
        (if s.current_difficulty = "hard" then "medium" else "easy")
      else s.current_difficulty := by
  unfold adjust_difficulty
  rw [hsc]
  dsimp only
  split_ifs <;> rfl

end Interview

/-! ## Claims -/

namespace Interview

/-- C4 (counterexample): the skip policy is not unconditional.  When a skip
keyword is submitted while the session is in a Confirmation exchange,
`evaluate_and_generate_filler` takes the Confirmation branch first and
returns score `None` with feedback `None` instead of score 0 with feedback
"Skipped.". -/
theorem c4_counterexample :
    (evaluate_and_generate_filler oracleFail skipConfState).score ≠ some 0 ∧
    (evaluate_and_generate_filler oracleFail skipConfState).feedback ≠ some "Skipped." := by
  decide

/-- C4 (amended): for every answer that is empty, whitespace-only, or equal to
"skip"/"pass" after lowercasing and trimming, `evaluate_and_generate_filler`
returns score 0, feedback "Skipped.", `needs_followup = false` and makes no
evaluator call — in every state whose current area is not Confirmation.  In a
Confirmation-area state the same submission instead yields score `None` and
feedback `None` (still with no evaluator call and no follow-up). -/
theorem c4_skip_policy (s : State)
    (e e2 : Option String → String → Bool → Option EvalResp) :
    ((s.current_area.getD "" ≠ "Confirmation" →
      (pyStrip (s.user_answer.getD "") = "" ∨
       pyStrip (pyLower (s.user_answer.getD "")) = "skip" ∨
       pyStrip (pyLower (s.user_answer.getD "")) = "pass") →
      ((evaluate_and_generate_filler e s).score = some 0 ∧
       (evaluate_and_generate_filler e s).feedback = some "Skipped." ∧
       (evaluate_and_generate_filler e s).needs_followup = false ∧
       (evaluate_and_generate_filler e s).filler = some "Okay, moving on." ∧
       evaluate_and_generate_filler e s = evaluate_and_generate_filler e2 s)) ∧
     (s.current_area.getD "" = "Confirmation" →
      ((evaluate_and_generate_filler e s).score = none ∧
       (evaluate_and_generate_filler e s).feedback = none ∧
       (evaluate_and_generate_filler e s).needs_followup = false ∧
       evaluate_and_generate_filler e s = evaluate_and_generate_filler e2 s))) := by
  constructor
  · intro harea hskip
    rw [evaluate_skip_eq e s harea hskip, evaluate_skip_eq e2 s harea hskip]
    exact ⟨rfl, rfl, rfl, rfl, rfl⟩
  · intro harea
    rw [evaluate_confirmation_eq e s harea, evaluate_confirmation_eq e2 s harea]
    exact ⟨rfl, rfl, rfl, rfl⟩

/-- C4 witness: a concrete " SKIP " answer outside a Confirmation exchange is
scored 0 / "Skipped." with no follow-up, independently of the evaluator
oracle. -/
theorem c4_skip_policy_witness :
    (evaluate_and_generate_filler oracleFail
        { sampleState with user_answer := some " SKIP " }).score = some 0 ∧
    (evaluate_and_generate_filler oracleFail
        { sampleState with user_answer := some " SKIP " }).feedback = some "Skipped." ∧
    (evaluate_and_generate_filler oracleFail
        { sampleState with user_answer := some " SKIP " }).needs_followup = false ∧
    (evaluate_and_generate_filler oracleFail
        { sampleState with user_answer := some " SKIP " }).filler = some "Okay, moving on." ∧
    evaluate_and_generate_filler oracleFail
        { sampleState with user_answer := some " SKIP " } =
      evaluate_and_generate_filler oracleConst
        { sampleState with user_answer := some " SKIP " } :=
  (c4_skip_policy { sampleState with user_answer := some " SKIP " }
    oracleFail oracleConst).1 (by decide) (by decide)

/-- C5: after each scored turn, `adjust_difficulty` ratchets the tier up one
step for score ≥ 75 (easy→medium→hard, capped at hard), down one step for
score < 45 (hard→medium→easy, capped at easy), and leaves it unchanged in the
neutral band [45, 75). -/
theorem c5_difficulty_ratchet (s : State) (sc : ℤ) (hsc : s.score = some sc) :
    (75 ≤ sc →
      ((s.current_difficulty = "easy" →
        (adjust_difficulty s).current_difficulty = "medium") ∧
       (s.current_difficulty = "medium" →
        (adjust_difficulty s).current_difficulty = "hard") ∧
       (s.current_difficulty = "hard" →
        (adjust_difficulty s).current_difficulty = "hard"))) ∧
    (sc < 45 →
      ((s.current_difficulty = "hard" →
        (adjust_difficulty s).current_difficulty = "medium") ∧
       (s.current_difficulty = "medium" →
        (adjust_difficulty s).current_difficulty = "easy") ∧
       (s.current_difficulty = "easy" →
        (adjust_difficulty s).current_difficulty = "easy"))) ∧
    (45 ≤ sc → sc < 75 →
      (adjust_difficulty s).current_difficulty = s.current_difficulty) := by
  rw [adjust_current_difficulty_eq s sc hsc]
  refine ⟨fun h75 => ⟨fun hc => ?_, fun hc => ?_, fun hc => ?_⟩,
    fun h45 => ⟨fun hc => ?_, fun hc => ?_, fun hc => ?_⟩, fun ha hb => ?_⟩
  · rw [hc, if_pos ⟨h75, by decide⟩, if_neg (by decide)]
  · rw [hc, if_pos ⟨h75, by decide⟩, if_pos rfl]
  · rw [hc, if_neg (fun h => h.2 rfl), if_neg (fun h => absurd h.1 (by omega))]
  · rw [hc, if_neg (fun h => absurd h.1 (by omega)), if_pos ⟨h45, by decide⟩,
      if_pos rfl]
  · rw [hc, if_neg (fun h => absurd h.1 (by omega)), if_pos ⟨h45, by decide⟩,
      if_neg (by decide)]
  · rw [hc, if_neg (fun h => absurd h.1 (by omega)), if_neg (fun h => h.2 rfl)]
  · rw [if_neg (fun h => absurd h.1 (by omega)),
      if_neg (fun h => absurd h.1 (by omega))]

/-- C5 witness: a turn scored 80 from tier "easy" yields "medium", 30 from
"hard" yields "medium", and 60 leaves the tier unchanged. -/
theorem c5_difficulty_ratchet_witness :
    (adjust_difficulty { sampleState with score := some 80 }).current_difficulty
      = "medium" ∧
    (adjust_difficulty { sampleState with
      score := some 30, current_difficulty := "hard" }).current_difficulty
      = "medium" ∧
    (adjust_difficulty { sampleState with
      score := some 60, current_difficulty := "medium" }).current_difficulty
      = "medium" :=
  ⟨((c5_difficulty_ratchet { sampleState with score := some 80 } 80 rfl).1
      (by decide)).1 rfl,
   ((c5_difficulty_ratchet { sampleState with
        score := some 30, current_difficulty := "hard" } 30 rfl).2.1
      (by decide)).1 rfl,
   (c5_difficulty_ratchet { sampleState with
        score := some 60, current_difficulty := "medium" } 60 rfl).2.2
      (by decide) (by decide)⟩

end Interview

namespace Interview

/-- C1 (counterexample): with time exhausted (remaining ≤ 0 at submission
time 301 s of a 5-minute budget) the very submission that trips the time
check still returns `ended = false` — the graph's `decide` edge runs before
`prepare_question`, so the end mark is only observed one submission later;
moreover a submission made while a follow-up is in progress does not end the
session at all: it is answered with the scripted confirmation question. -/
theorem c1_counterexample :
    ((sampleState.limit : ℚ) * 60 ≤ 301 - sampleState.start_time ∧
     (submit_answer oracleFail shuffleId followupConst 301 "my answer"
       sampleState).2.ended = false) ∧
    ((submit_answer oracleFail shuffleId followupConst 301 "my answer"
       followupTimeState).2.ended = false ∧
     (submit_answer oracleFail shuffleId followupConst 301 "my answer"
       followupTimeState).1.is_end = false ∧
     (submit_answer oracleFail shuffleId followupConst 301 "my answer"
       followupTimeState).2.message =
         some "Thank you for that clarification. Should we move to the next question?") := by
  constructor
  · constructor
    · norm_num [sampleState]
    · have h4 : (turnNodes oracleFail "my answer" sampleState).is_end = false := by
        rw [turnNodes_is_end]; rfl
      rw [submit_answer_eq_of_not_end _ _ _ _ _ _ h4]
  · have h4 : (turnNodes oracleFail "my answer" followupTimeState).is_end = false := by
      rw [turnNodes_is_end]; rfl
    rw [submit_answer_eq_of_not_end _ _ _ _ _ _ h4]
    have hconf := prepare_followup_confirm shuffleId followupConst 301
      (turnNodes oracleFail "my answer" followupTimeState)
      (by rw [turnNodes_is_end]; rfl) (by rw [turnNodes_intro_done]; rfl)
      (by rw [turnNodes_current_area]; rfl)
    rw [hconf]
    refine ⟨rfl, ?_, rfl⟩
    show (turnNodes oracleFail "my answer" followupTimeState).is_end = false
    exact h4

/-- C1 (amended): in time mode, once elapsed time strictly exceeds the
budget, a submission made outside a pending follow-up detour marks the
session ended (though that submission itself still answers `ended = false`
and generates no new question), and every submission made after the session
is marked ended returns `ended = true` with the terminal message and no new
question. -/
theorem c1_time_exhaustion (s : State)
    (e : Option String → String → Bool → Option EvalResp)
    (sh : List Question → List Question)
    (fu : Option String → Option String → String) (now : ℚ) (ans : String) :
    ((s.is_end = false → s.intro_done = true → s.mode = "time" →
      s.current_area ≠ some "Follow-up" →
      (s.limit : ℚ) * 60 < now - s.start_time →
      ((submit_answer e sh fu now ans s).1.is_end = true ∧
       (submit_answer e sh fu now ans s).2.ended = false ∧
       (submit_answer e sh fu now ans s).1.current_question = s.current_question)) ∧
     (s.is_end = true →
      ((submit_answer e sh fu now ans s).2.ended = true ∧
       (submit_answer e sh fu now ans s).2.message = some "Interview Complete." ∧
       (submit_answer e sh fu now ans s).1.is_end = true ∧
       (submit_answer e sh fu now ans s).1.current_question = s.current_question))) := by
  constructor
  · intro hend hintro hmode harea htime
    have h4 : (turnNodes e ans s).is_end = false := by
      rw [turnNodes_is_end]; exact hend
    rw [submit_answer_eq_of_not_end e sh fu now ans s h4]
    have hprep : prepare_question sh fu now (turnNodes e ans s) =
        { turnNodes e ans s with is_end := true } := by
      apply prepare_time_end
      · exact h4
      · rw [turnNodes_intro_done]; exact hintro
      · rw [turnNodes_current_area]; exact harea
      · rw [turnNodes_mode]; exact hmode
      · rw [turnNodes_limit, turnNodes_start_time]; exact htime
    rw [hprep]
    refine ⟨rfl, rfl, ?_⟩
    show (turnNodes e ans s).current_question = s.current_question
    rw [turnNodes_current_question]
  · intro hend
    have h4 : (turnNodes e ans s).is_end = true := by
      rw [turnNodes_is_end]; exact hend
    rw [submit_answer_eq_of_end e sh fu now ans s h4]
    exact ⟨rfl, rfl, h4, by rw [turnNodes_current_question]⟩

/-- C1 witness: at 301 s of a 5-minute session the submission marks the
session ended while answering `ended = false`; once marked ended, a further
submission returns `ended = true` with the terminal message and the question
unchanged. -/
theorem c1_time_exhaustion_witness :
    ((submit_answer oracleFail shuffleId followupConst 301 "my answer"
        sampleState).1.is_end = true ∧
     (submit_answer oracleFail shuffleId followupConst 301 "my answer"
        sampleState).2.ended = false ∧
     (submit_answer oracleFail shuffleId followupConst 301 "my answer"
        sampleState).1.current_question = sampleState.current_question) ∧
    ((submit_answer oracleFail shuffleId followupConst 302 "x"
        { sampleState with is_end := true }).2.ended = true ∧
     (submit_answer oracleFail shuffleId followupConst 302 "x"
        { sampleState with is_end := true }).2.message = some "Interview Complete." ∧
     (submit_answer oracleFail shuffleId followupConst 302 "x"
        { sampleState with is_end := true }).1.is_end = true ∧
     (submit_answer oracleFail shuffleId followupConst 302 "x"
        { sampleState with is_end := true }).1.current_question =
       ({ sampleState with is_end := true } : State).current_question) :=
  ⟨(c1_time_exhaustion sampleState oracleFail shuffleId followupConst 301
      "my answer").1 rfl rfl rfl (by decide) (by norm_num [sampleState]),
   (c1_time_exhaustion { sampleState with is_end := true } oracleFail shuffleId
      followupConst 302 "x").2 rfl⟩

/-- C2 (counterexample): a turn-count session that has reached its limit with
a follow-up owed (`needs_followup = true`, flagged by the last evaluation but
not yet asked) ends immediately at the next `prepare_question`: the owed
follow-up is dropped, not asked and confirmed first. -/
theorem c2_counterexample :
    c2state.needs_followup = true ∧
    (prepare_question shuffleId followupConst 0 c2state).is_end = true ∧
    (prepare_question shuffleId followupConst 0 c2state).current_question =
      c2state.current_question := by
  refine ⟨rfl, ?_, ?_⟩
  · rw [prepare_turn_end shuffleId followupConst 0 c2state rfl rfl (by decide)
      (by decide) (by decide)]
  · rw [prepare_turn_end shuffleId followupConst 0 c2state rfl rfl (by decide)
      (by decide) (by decide)]

/-- C2 (amended): in turn-count mode `prepare_question` sets `is_end` at the
first `MAIN` selection with `questions_asked ≥ limit` (asking nothing
further), and below the limit the session does not end while some pool is
non-empty; a pending confirmation (follow-up already asked) still completes
before the end check, but an owed not-yet-asked follow-up is dropped rather
than asked when the limit has been reached. -/
theorem c2_turn_limit (s : State) (sh : List Question → List Question)
    (fu : Option String → Option String → String) (now : ℚ)
    (hend : s.is_end = false) (hintro : s.intro_done = true)
    (hmode : s.mode ≠ "time") :
    ((s.current_area ≠ some "Follow-up" → s.limit ≤ s.questions_asked →
      ((prepare_question sh fu now s).is_end = true ∧
       (prepare_question sh fu now s).questions_asked = s.questions_asked ∧
       (prepare_question sh fu now s).current_question = s.current_question)) ∧
     (s.current_area ≠ some "Follow-up" → s.questions_asked < s.limit →
      (s.difficulty_pools.easy ≠ [] ∨ s.difficulty_pools.medium ≠ [] ∨
        s.difficulty_pools.hard ≠ []) →
      (prepare_question sh fu now s).is_end = false) ∧
     (s.current_area = some "Follow-up" →
      ((prepare_question sh fu now s).current_question =
        some "Thank you for that clarification. Should we move to the next question?" ∧
       (prepare_question sh fu now s).is_end = false))) := by
  refine ⟨fun harea hcount => ?_, fun harea hcount hpool => ?_, fun harea => ?_⟩
  · rw [prepare_turn_end sh fu now s hend hintro harea hmode hcount]
    exact ⟨rfl, rfl, rfl⟩
  · unfold prepare_question
    rw [if_neg (by simp [hend]), if_neg (by simp [hintro]), if_neg harea,
      if_neg (fun h => hmode h.1), if_neg (fun h => absurd h.2 (not_le.mpr hcount))]
    split
    · exact hend
    · exact mainSelect_not_end sh s hend hpool
  · rw [prepare_followup_confirm sh fu now s hend hintro harea]
    exact ⟨rfl, hend⟩

/-- C2 witness: a session at its turn limit ends without asking anything; one
below the limit with a non-empty pool does not end; one with a follow-up
pending first receives the scripted confirmation prompt. -/
theorem c2_turn_limit_witness :
    ((prepare_question shuffleId followupConst 0
        { sampleState with mode := "turns", limit := 1 }).is_end = true ∧
     (prepare_question shuffleId followupConst 0
        { sampleState with mode := "turns", limit := 1 }).questions_asked =
       ({ sampleState with mode := "turns", limit := 1 } : State).questions_asked ∧
     (prepare_question shuffleId followupConst 0
        { sampleState with mode := "turns", limit := 1 }).current_question =
       ({ sampleState with mode := "turns", limit := 1 } : State).current_question) ∧
    (prepare_question shuffleId followupConst 0
        { sampleState with mode := "turns", current_area := some "Follow-up" }).current_question =
      some "Thank you for that clarification. Should we move to the next question?" ∧
    (prepare_question shuffleId followupConst 0
        { sampleState with mode := "turns", current_area := some "Follow-up" }).is_end = false :=
  ⟨(c2_turn_limit { sampleState with mode := "turns", limit := 1 } shuffleId
      followupConst 0 rfl rfl (by decide)).1 (by decide) (by decide),
   ((c2_turn_limit { sampleState with mode := "turns", current_area := some "Follow-up" }
      shuffleId followupConst 0 rfl rfl (by decide)).2.2 rfl).1,
   ((c2_turn_limit { sampleState with mode := "turns", current_area := some "Follow-up" }
      shuffleId followupConst 0 rfl rfl (by decide)).2.2 rfl).2⟩

end Interview

namespace Interview

/-- C3: a turn is appended to the transcript by `process` iff its evaluation
produced a real numeric score and the turn area is not Confirmation (in which
case the score entry is appended too); evaluation of a Confirmation turn
always yields score `None`; and along every run from a freshly started
session, the transcript length equals the scores length. -/
theorem c3_transcript_scores :
    (∀ s : State,
      (∀ sc : ℤ, s.score = some sc → s.current_area ≠ some "Confirmation" →
        (process s).transcript = s.transcript ++
          [{ question := s.current_question, answer := s.user_answer,
             score := sc, feedback := s.feedback, difficulty := s.current_diff }] ∧
        (process s).scores = s.scores ++ [sc]) ∧
      (s.score = none ∨ s.current_area = some "Confirmation" → process s = s)) ∧
    (∀ (e : Option String → String → Bool → Option EvalResp) (s : State),
      s.current_area.getD "" = "Confirmation" →
      (evaluate_and_generate_filler e s).score = none) ∧
    (∀ (name role resume mode : String) (limit : ℤ) (now : ℚ) (pools : Pools)
      (sh : List Question → List Question)
      (fu : Option String → Option String → String) (inputs : List StepInput),
      (runSession (startState name role resume mode limit now pools sh fu)
          inputs).transcript.length =
        (runSession (startState name role resume mode limit now pools sh fu)
          inputs).scores.length) := by
  refine ⟨fun s => ⟨fun sc hsc harea => ?_, fun h => ?_⟩, fun e s harea => ?_,
    fun name role resume mode limit now pools sh fu inputs => ?_⟩
  · rw [process_eq_append s sc hsc harea]
    exact ⟨rfl, rfl⟩
  · rcases h with h | h
    · exact process_eq_self_of_none s h
    · exact process_eq_self_of_conf s h
  · rw [evaluate_confirmation_eq e s harea]
  · apply runSession_len
    unfold startState
    rw [prepare_transcript, prepare_scores]
    rfl

/-- C3 witness: a concrete scored non-Confirmation turn is appended to both
the transcript and the scores list. -/
theorem c3_transcript_scores_witness :
    (process c3wState).transcript = c3wState.transcript ++
      [{ question := c3wState.current_question, answer := c3wState.user_answer,
         score := 50, feedback := c3wState.feedback,
         difficulty := c3wState.current_diff }] ∧
    (process c3wState).scores = c3wState.scores ++ [50] :=
  (c3_transcript_scores.1 c3wState).1 50 rfl (by decide)

/-- C6: at a `MAIN` selection (budget not exhausted, no follow-up detour),
`prepare_question` draws from the current tier's pool when it is non-empty,
otherwise falls back in the fixed order medium → hard → easy to the first
non-empty pool; the posed question is destructively removed from the chosen
pool and the other pools are untouched; if all three pools are empty the
session is marked ended at that selection. -/
theorem c6_pool_policy (s : State) (sh : List Question → List Question)
    (fu : Option String → Option String → String) (now : ℚ)
    (hperm : ∀ l, (sh l).Perm l)
    (hend : s.is_end = false) (hintro : s.intro_done = true)
    (harea : s.current_area ≠ some "Follow-up")
    (hb1 : ¬ (s.mode = "time" ∧ (s.limit : ℚ) * 60 < now - s.start_time))
    (hb2 : ¬ (s.mode ≠ "time" ∧ s.limit ≤ s.questions_asked))
    (hnf : s.needs_followup = false) :
    ((s.difficulty_pools.get s.current_difficulty ≠ [] →
      SelectedFrom s (prepare_question sh fu now s) s.current_difficulty) ∧
     (s.difficulty_pools.get s.current_difficulty = [] →
      s.difficulty_pools.medium ≠ [] →
      SelectedFrom s (prepare_question sh fu now s) "medium") ∧
     (s.difficulty_pools.get s.current_difficulty = [] →
      s.difficulty_pools.medium = [] → s.difficulty_pools.hard ≠ [] →
      SelectedFrom s (prepare_question sh fu now s) "hard") ∧
     (s.difficulty_pools.get s.current_difficulty = [] →
      s.difficulty_pools.medium = [] → s.difficulty_pools.hard = [] →
      s.difficulty_pools.easy ≠ [] →
      SelectedFrom s (prepare_question sh fu now s) "easy") ∧
     (s.difficulty_pools.easy = [] → s.difficulty_pools.medium = [] →
      s.difficulty_pools.hard = [] →
      prepare_question sh fu now s = { s with is_end := true })) := by
  rw [prepare_main_reduce sh fu now s hend hintro harea hb1 hb2 hnf]
  refine ⟨fun h => ?_, fun h hm => ?_, fun h hm hh => ?_, fun h hm hh he => ?_,
    fun he hm hh => ?_⟩
  · exact mainSelect_selected sh s hperm hend _ (mainSelectLevel_of_cur s h) h
  · exact mainSelect_selected sh s hperm hend _ (mainSelectLevel_of_medium s h hm)
      (by rw [Pools.get_medium]; exact hm)
  · exact mainSelect_selected sh s hperm hend _ (mainSelectLevel_of_hard s h hm hh)
      (by rw [Pools.get_hard]; exact hh)
  · exact mainSelect_selected sh s hperm hend _
      (mainSelectLevel_of_easy s h hm hh he) (by rw [Pools.get_easy]; exact he)
  · exact mainSelect_end_of_all_empty sh s he hm hh

/-- C6 witness: a concrete mid-interview turn-count session with a non-empty
current ("easy") pool selects from it. -/
theorem c6_pool_policy_witness :
    SelectedFrom c6wState (prepare_question shuffleId followupConst 0 c6wState)
      "easy" :=
  (c6_pool_policy c6wState shuffleId followupConst 0 (fun l => List.Perm.refl l)
    rfl rfl (by decide) (fun h => absurd h.1 (by decide))
    (fun h => absurd h.2 (by decide)) rfl).1 (by decide)

/-- C8: when the evaluator call fails (or its output is unparsable),
`evaluate_and_generate_filler` falls back to score 0, the generic feedback
"Evaluation Error" and `needs_followup = false`; the turn is still recorded
in the transcript and scores as a normal low-scoring turn, and the failure
leaves the session's ended flag untouched. -/
theorem c8_eval_failure (s : State)
    (e : Option String → String → Bool → Option EvalResp)
    (hfail : ∀ x y b, e x y b = none)
    (harea : s.current_area.getD "" ≠ "Confirmation")
    (hskip : ¬ (pyStrip (s.user_answer.getD "") = "" ∨
      pyStrip (pyLower (s.user_answer.getD "")) = "skip" ∨
      pyStrip (pyLower (s.user_answer.getD "")) = "pass")) :
    ((evaluate_and_generate_filler e s).score = some 0 ∧
     (evaluate_and_generate_filler e s).feedback = some "Evaluation Error" ∧
     (evaluate_and_generate_filler e s).needs_followup = false ∧
     (process (adjust_difficulty (evaluate_and_generate_filler e s))).transcript =
       s.transcript ++
         [{ question := s.current_question, answer := s.user_answer, score := 0,
            feedback := some "Evaluation Error", difficulty := s.current_diff }] ∧
     (process (adjust_difficulty (evaluate_and_generate_filler e s))).scores =
       s.scores ++ [0] ∧
     (process (adjust_difficulty (evaluate_and_generate_filler e s))).is_end =
       s.is_end) := by
  have heq := evaluate_fail_eq e s harea hskip hfail
  have harea2 : s.current_area ≠ some "Confirmation" := by
    intro hc
    exact harea (by rw [hc]; rfl)
  have hsc : (adjust_difficulty (evaluate_and_generate_filler e s)).score = some 0 := by
    rw [adjust_score, heq]
  have harea3 : (adjust_difficulty (evaluate_and_generate_filler e s)).current_area ≠
      some "Confirmation" := by
    rw [adjust_current_area, heq]
    exact harea2
  have hp := process_eq_append _ 0 hsc harea3
  refine ⟨by rw [heq], by rw [heq], by rw [heq], ?_, ?_, ?_⟩
  · rw [hp, adjust_transcript, adjust_current_question, adjust_user_answer,
      adjust_feedback, adjust_current_diff, heq]
  · rw [hp, adjust_scores, heq]
  · rw [process_is_end, adjust_is_end, heq]

/-- C8 witness: a failing evaluator on a concrete substantive answer yields
the fallback and the turn is still recorded. -/
theorem c8_eval_failure_witness :
    (evaluate_and_generate_filler oracleFail c8state).score = some 0 ∧
    (evaluate_and_generate_filler oracleFail c8state).feedback =
      some "Evaluation Error" ∧
    (evaluate_and_generate_filler oracleFail c8state).needs_followup = false ∧
    (process (adjust_difficulty
      (evaluate_and_generate_filler oracleFail c8state))).transcript =
        c8state.transcript ++
          [{ question := c8state.current_question, answer := c8state.user_answer,
             score := 0, feedback := some "Evaluation Error",
             difficulty := c8state.current_diff }] ∧
    (process (adjust_difficulty
      (evaluate_and_generate_filler oracleFail c8state))).scores =
        c8state.scores ++ [0] ∧
    (process (adjust_difficulty
      (evaluate_and_generate_filler oracleFail c8state))).is_end = c8state.is_end :=
  c8_eval_failure c8state oracleFail (fun _ _ _ => rfl) (by decide) (by decide)

end Interview

namespace Backend

theorem msg_roundtrip (m : Msg) : msg_from_dict (msg_to_dict m) = some m := by
  cases m <;> rfl

theorem messages_roundtrip (msgs : List Msg) :
    messages_from_dict (messages_to_dict msgs) = some msgs := by
  induction msgs with
  | nil => rfl
  | cons m rest ih =>
    rw [show messages_to_dict (m :: rest) = msg_to_dict m :: messages_to_dict rest
      from rfl]
    unfold messages_from_dict
    rw [msg_roundtrip m, ih]

theorem pyTrunc_intCast (n : ℤ) : pyTrunc (n : ℚ) = n := by
  unfold pyTrunc
  split
  · exact Int.floor_intCast n
  · exact Int.ceil_intCast n

/-- C7: in the time-limited variant, on a non-finished session whose
remaining time is positive but below 10% of the budget, `get_response`
unconditionally returns the fixed closing statement, marks the session
finished, and is independent of the LLM oracle (no LLM reply is consulted),
regardless of any in-progress exchange in the message history. -/
theorem c7_closing_window (s : BSession) (llm1 llm2 : List Msg → String)
    (now : ℚ) (input : String) (isSil : Bool)
    (hfin : s.finished = false)
    (hpos : 0 < s.get_remaining_time now)
    (hlt : s.get_remaining_time now < s.duration_minutes * (1 / 10)) :
    ((s.get_response llm1 now input isSil).2 =
      "We're out of time. Thank you so much for your responses today. This concludes the interview." ∧
     (s.get_response llm1 now input isSil).1.finished = true ∧
     s.get_response llm1 now input isSil = s.get_response llm2 now input isSil) := by
  unfold BSession.get_response BSession.get_remaining_time
  unfold BSession.get_remaining_time at hpos hlt
  dsimp only
  rw [if_neg (show ¬ (s.finished = true) by simp [hfin]),
    if_neg (not_le.mpr hpos), if_pos hlt,
    if_neg (show ¬ (s.finished = true) by simp [hfin]),
    if_neg (not_le.mpr hpos), if_pos hlt]
  exact ⟨rfl, rfl, rfl⟩

/-- C7 witness: at 276 s of a 5-minute interview (24 s = 8% of budget left),
the reply is the fixed closing, the session is marked finished, and the
result does not depend on the LLM oracle. -/
theorem c7_closing_window_witness :
    ((sampleBSession.get_response (fun _ => "a question") 276 "my answer" false).2 =
      "We're out of time. Thank you so much for your responses today. This concludes the interview." ∧
     (sampleBSession.get_response (fun _ => "a question") 276 "my answer" false).1.finished = true ∧
     sampleBSession.get_response (fun _ => "a question") 276 "my answer" false =
       sampleBSession.get_response (fun _ => "another reply") 276 "my answer" false) :=
  c7_closing_window sampleBSession (fun _ => "a question") (fun _ => "another reply")
    276 "my answer" false rfl
    (by unfold BSession.get_remaining_time sampleBSession mkSession; norm_num)
    (by unfold BSession.get_remaining_time sampleBSession mkSession; norm_num)

/-- C9: a session written through `SessionStore.save` on the Redis backend is
reconstructed equivalently by `SessionStore.get` under the same id — the same
id, name, role, resume text, duration, start time, finished flag and mode,
and the identical message sequence in the same order.  (Every session the
code constructs has an integral duration and a non-empty resume text, the two
properties the serialization relies on.) -/
theorem c9_roundtrip (store : RedisStore) (s : BSession) (genId : String)
    (now : ℚ)
    (hdur : ∃ n : ℤ, s.duration_minutes = (n : ℚ))
    (hres : s.resume_text ≠ "") :
    SessionStore.get (SessionStore.save store s) s.id genId now = some s := by
  obtain ⟨n, hn⟩ := hdur
  rcases s with ⟨id, name, role, resume, dur, st, msgs, fin, mode⟩
  dsimp only at hn hres
  subst hn
  unfold SessionStore.get SessionStore.save storeFind
  dsimp only
  rw [if_pos rfl]
  dsimp only
  rw [messages_roundtrip]
  dsimp only
  unfold mkSession
  dsimp only
  rw [if_neg hres, pyTrunc_intCast]
  cases fin <;> rfl

/-- C9 witness: a concrete constructor-built session round-trips through
save/get on an empty store. -/
theorem c9_roundtrip_witness :
    SessionStore.get (SessionStore.save [] sampleBSession) sampleBSession.id
      "other-id" 99 = some sampleBSession :=
  c9_roundtrip [] sampleBSession "other-id" 99 ⟨5, rfl⟩ (by decide)

/-- C10: both time-limited `/start_interview` endpoints reject every duration
outside the inclusive range 3..45 minutes with an HTTP 400 error before any
session is created, leaving the session store unchanged. -/
theorem c10_duration_validation (store : RedisStore)
    (sessions : List (String × BSession)) (name role mode extracted genId : String)
    (duration : ℤ) (now : ℚ) (hdur : duration < 3 ∨ 45 < duration) :
    start_interview_index store name role duration mode extracted genId now =
      (store, Except.error ⟨400, "Duration must be between 3 and 45 minutes."⟩) ∧
    start_interview_main sessions name role duration mode extracted genId now =
      (sessions, Except.error ⟨400, "Duration must be between 3 and 45 minutes."⟩) := by
  constructor
  · unfold start_interview_index
    rw [if_pos hdur]
  · unfold start_interview_main
    rw [if_pos hdur]

/-- C10 witness: a 50-minute request is rejected with HTTP 400 by both
variants and the stores are unchanged. -/
theorem c10_duration_validation_witness :
    start_interview_index [] "Bob" "Dev" 50 "chat" "" "g" 0 =
      ([], Except.error ⟨400, "Duration must be between 3 and 45 minutes."⟩) ∧
    start_interview_main [] "Bob" "Dev" 50 "chat" "" "g" 0 =
      ([], Except.error ⟨400, "Duration must be between 3 and 45 minutes."⟩) :=
  c10_duration_validation [] [] "Bob" "Dev" "chat" "" "g" 50 0 (Or.inr (by decide))

end Backend
